import Mathlib

/-!
# The POSIX `__getch` of `src/compatible.cpp`

A shallow embedding of the non-Windows branch of `compatible.cpp`.  The function
talks to three platform services (`tcgetattr`, `tcsetattr`, `read`) and to
`perror`.  They are modelled over an explicit `World`:

* `term`   : the attribute set currently in force on the terminal behind fd 0;
* `stdin`  : the bytes still to be delivered on fd 0 (empty list = end of input);
* `stderr` : the labels handed to `perror`, oldest first;
* `calls`  : a ghost log of the platform calls made so far.

Whether a platform call fails is not decided by the program, so the outcome of
each of the four calls is an input (`Outcomes`).  The constants `ICANON`,
`ECHO`, `VMIN`, `VTIME` and the width of `tcflag_t` come from the system headers
and are taken as a parameter (`Platform`).
-/

namespace Compatible

/-- One byte, the bit pattern of a C `char`. -/
abbrev Byte := Fin 256

/-- The constants of `<termios.h>` that `__getch` uses. -/
structure Platform where
  /-- Number of bits of `tcflag_t`. -/
  tcflagBits : Nat
  /-- Mask of the canonical-mode flag in `c_lflag`. -/
  ICANON : Nat
  /-- Mask of the echo flag in `c_lflag`. -/
  ECHO : Nat
  /-- Index of the minimum-byte-count slot in `c_cc`. -/
  VMIN : Nat
  /-- Index of the read-timeout slot in `c_cc`. -/
  VTIME : Nat

/-- The values of Linux on x86-64 (glibc): `tcflag_t` is `unsigned int`,
`ICANON = 0000002`, `ECHO = 0000010`, `VMIN = 6`, `VTIME = 5`. -/
def linux : Platform :=
  { tcflagBits := 32, ICANON := 2, ECHO := 8, VMIN := 6, VTIME := 5 }

/-- The fields of `struct termios`; `c_cc` is the control-character array. -/
structure Termios where
  c_iflag : Nat
  c_oflag : Nat
  c_cflag : Nat
  c_lflag : Nat
  c_line : Nat
  c_cc : Nat → Nat
  c_ispeed : Nat
  c_ospeed : Nat

/-- The initialiser `struct termios old = { 0 }`. -/
def Termios.zero : Termios :=
  { c_iflag := 0, c_oflag := 0, c_cflag := 0, c_lflag := 0, c_line := 0,
    c_cc := fun _ => 0, c_ispeed := 0, c_ospeed := 0 }

/-- The `optional_actions` argument of `tcsetattr`. -/
inductive Action where
  | TCSANOW
  | TCSADRAIN
  deriving DecidableEq, Repr

/-- Which platform call a log entry records. -/
inductive CallKind where
  | tcgetattr
  | tcsetattr (a : Action)
  | read
  deriving DecidableEq, Repr

/-- A ghost log entry: the call, whether it succeeded, and the terminal
attributes in force when the call was entered. -/
structure CallRecord where
  kind : CallKind
  ok : Bool
  termAtCall : Termios

/-- Everything outside the program that `__getch` reads or changes. -/
structure World where
  term : Termios
  stdin : List Byte
  stderr : List String
  calls : List CallRecord

/-- Which of the four platform calls of one `__getch` fail (`true` = fails). -/
structure Outcomes where
  tcgetattrFails : Bool
  tcsetattrNowFails : Bool
  readFails : Bool
  tcsetattrDrainFails : Bool
  deriving DecidableEq, Repr

/-- All four platform calls succeed. -/
def Outcomes.allOk : Outcomes :=
  { tcgetattrFails := false, tcsetattrNowFails := false, readFails := false,
    tcsetattrDrainFails := false }

/-- The C expression `~x` converted to a `w`-bit unsigned `tcflag_t`. -/
def bitNot (w x : Nat) : Nat := 2 ^ w - 1 - x % 2 ^ w

/-- The call `perror(s)`: one diagnostic labelled `s` goes to the error stream. -/
def perror (s : String) (w : World) : World :=
  { w with stderr := w.stderr ++ [s] }

/-- The call `tcgetattr(0, &t)`: on success the terminal's attributes are stored
into `t` and 0 is returned; on failure `t` is left as it was and -1 is returned. -/
def tcgetattr (fails : Bool) (t : Termios) (w : World) : Int × Termios × World :=
  let w1 := { w with calls := w.calls ++ [⟨CallKind.tcgetattr, !fails, w.term⟩] }
  if fails then (-1, t, w1) else (0, w.term, w1)

/-- The call `tcsetattr(0, a, &t)`: on success `t` becomes the terminal's
attribute set and 0 is returned; on failure the terminal is unchanged and -1 is
returned. -/
def tcsetattr (fails : Bool) (a : Action) (t : Termios) (w : World) : Int × World :=
  let w1 := { w with calls := w.calls ++ [⟨CallKind.tcsetattr a, !fails, w.term⟩] }
  if fails then (-1, w1) else (0, { w1 with term := t })

/-- The call `read(0, &buf, 1)`: on failure returns -1 and touches neither the
buffer nor the input; at end of input returns 0 and leaves the buffer; otherwise
moves the first pending byte into the buffer and returns 1. -/
def read (fails : Bool) (buf : Byte) (w : World) : Int × Byte × World :=
  let w1 := { w with calls := w.calls ++ [⟨CallKind.read, !fails, w.term⟩] }
  if fails then (-1, buf, w1)
  else
    match w.stdin with
    | [] => (0, buf, w1)
    | b :: rest => (1, b, { w1 with stdin := rest })

/-- The POSIX `__getch` (compatible.cpp, lines 19-38), statement by statement. -/
def __getch (P : Platform) (o : Outcomes) (w : World) : Byte × World :=
  let buf : Byte := 0
  let old : Termios := Termios.zero
  let (r1, old, w) := tcgetattr o.tcgetattrFails old w
  let w := if r1 < 0 then perror "tcsetattr()" w else w
  let old := { old with c_lflag := old.c_lflag &&& bitNot P.tcflagBits P.ICANON }
  let old := { old with c_lflag := old.c_lflag &&& bitNot P.tcflagBits P.ECHO }
  let old := { old with c_cc := Function.update old.c_cc P.VMIN 1 }
  let old := { old with c_cc := Function.update old.c_cc P.VTIME 0 }
  let (r2, w) := tcsetattr o.tcsetattrNowFails Action.TCSANOW old w
  let w := if r2 < 0 then perror "tcsetattr ICANON" w else w
  let (r3, buf, w) := read o.readFails buf w
  let w := if r3 < 0 then perror "read()" w else w
  let old := { old with c_lflag := old.c_lflag ||| P.ICANON }
  let old := { old with c_lflag := old.c_lflag ||| P.ECHO }
  let (r4, w) := tcsetattr o.tcsetattrDrainFails Action.TCSADRAIN old w
  let w := if r4 < 0 then perror "tcsetattr ~ICANON" w else w
  (buf, w)

/-- Successive calls of `__getch`, each entered in the world the previous one
left; the `i`-th call meets the `i`-th outcome. Returns the bytes in call order. -/
def getchN (P : Platform) : List Outcomes → World → List Byte × World
  | [], w => ([], w)
  | o :: os, w =>
    let r := __getch P o w
    let rs := getchN P os r.2
    (r.1 :: rs.1, rs.2)

/-- The snapshot `old` as it stands after lines 23-28: flags cleared, `VMIN`
and `VTIME` overwritten. -/
def rawOf (P : Platform) (t : Termios) : Termios :=
  { t with
    c_lflag := (t.c_lflag &&& bitNot P.tcflagBits P.ICANON) &&& bitNot P.tcflagBits P.ECHO
    c_cc := Function.update (Function.update t.c_cc P.VMIN 1) P.VTIME 0 }

/-- The snapshot `old` as it stands after lines 33-34. -/
def cookedOf (P : Platform) (t : Termios) : Termios :=
  { t with c_lflag := (t.c_lflag ||| P.ICANON) ||| P.ECHO }

/-- The contents of `old` after line 23. -/
def snapshot (o : Outcomes) (w : World) : Termios :=
  if o.tcgetattrFails then Termios.zero else w.term

/-- The log entries one call of `__getch` appended to the log of `w`. -/
def newCalls (P : Platform) (o : Outcomes) (w : World) : List CallRecord :=
  (__getch P o w).2.calls.drop w.calls.length

/-- The diagnostics one call of `__getch` appended to the error stream of `w`. -/
def newDiagnostics (P : Platform) (o : Outcomes) (w : World) : List String :=
  (__getch P o w).2.stderr.drop w.stderr.length

/-- A Linux terminal in its usual cooked mode (canonical, echoing, `VMIN = 1`,
`VTIME = 0`) with the given pending input, empty error stream and empty log. -/
def linuxCooked (input : List Byte) : World :=
  { term := { Termios.zero with c_lflag := 10, c_cc := Function.update (fun _ => 0) 6 1 }
    stdin := input, stderr := [], calls := [] }

/-- The label the source hands to `perror` when the given call has failed
(lines 24, 30, 32 and 36). -/
def diagnosticOf : CallKind → String
  | CallKind.tcgetattr => "tcsetattr()"
  | CallKind.tcsetattr Action.TCSANOW => "tcsetattr ICANON"
  | CallKind.read => "read()"
  | CallKind.tcsetattr Action.TCSADRAIN => "tcsetattr ~ICANON"

/-- Only the attribute query fails, as when fd 0 is not a terminal for
`tcgetattr` alone. -/
def Outcomes.queryFails : Outcomes :=
  { tcgetattrFails := true, tcsetattrNowFails := false, readFails := false,
    tcsetattrDrainFails := false }

/-- Both attribute-set calls fail; the query and the read succeed. -/
def Outcomes.bothSetsFail : Outcomes :=
  { tcgetattrFails := false, tcsetattrNowFails := true, readFails := false,
    tcsetattrDrainFails := true }

/-- Only the read fails. -/
def Outcomes.readFailsOnly : Outcomes :=
  { tcgetattrFails := false, tcsetattrNowFails := false, readFails := true,
    tcsetattrDrainFails := false }

/-- A Linux terminal that is canonical but has echo switched off (as during a
password prompt), `VMIN = 1`, `VTIME = 0`, with the byte `x` pending. -/
def linuxNoEcho : World :=
  { term := { Termios.zero with c_lflag := 2, c_cc := Function.update (fun _ => 0) 6 1 }
    stdin := [120], stderr := [], calls := [] }

/-- A Linux terminal already in raw mode (`ICANON` and `ECHO` both clear), with
the byte `x` pending. -/
def linuxRaw : World :=
  { term := { Termios.zero with c_lflag := 0, c_cc := Function.update (fun _ => 0) 6 1 }
    stdin := [120], stderr := [], calls := [] }

/-! ## Bit-level facts about the flag updates -/

theorem testBit_bitNot (w x i : Nat) :
    (bitNot w x).testBit i = (decide (i < w) && !x.testBit i) := by
  have h : x % 2 ^ w < 2 ^ w := Nat.mod_lt _ (Nat.two_pow_pos w)
  have e : bitNot w x = 2 ^ w - (x % 2 ^ w + 1) := by unfold bitNot; omega
  rw [e, Nat.testBit_two_pow_sub_succ h, Nat.testBit_mod_two_pow]
  by_cases hi : i < w <;> simp [hi]

theorem cleared_first (l w m k : Nat) : ((l &&& bitNot w m) &&& k) &&& m = 0 := by
  apply Nat.eq_of_testBit_eq
  intro i
  simp [testBit_bitNot]
  intro _ _ h; simp [h]

theorem cleared_second (l w m k : Nat) : ((l &&& k) &&& bitNot w m) &&& m = 0 := by
  apply Nat.eq_of_testBit_eq
  intro i
  simp [testBit_bitNot]

theorem set_first (l m k : Nat) : ((l ||| m) ||| k) &&& m = m := by
  apply Nat.eq_of_testBit_eq
  intro i
  simp
  intro h; simp [h]

theorem set_second (l m k : Nat) : ((l ||| k) ||| m) &&& m = m := by
  apply Nat.eq_of_testBit_eq
  intro i
  simp
  intro h; simp [h]

theorem clear_then_set_id (l w I E : Nat) (hl : l < 2 ^ w) (hI : l &&& I = I)
    (hE : l &&& E = E) :
    (((l &&& bitNot w I) &&& bitNot w E) ||| I) ||| E = l := by
  apply Nat.eq_of_testBit_eq
  intro i
  have h1 := congrArg (fun n => n.testBit i) hI
  have h2 := congrArg (fun n => n.testBit i) hE
  simp only [Nat.testBit_and] at h1 h2
  simp only [Nat.testBit_or, Nat.testBit_and, testBit_bitNot]
  by_cases hi : i < w
  · simp [hi]
    cases hA : l.testBit i <;> cases hB : I.testBit i <;> cases hC : E.testBit i <;> simp_all
  · have : l.testBit i = false :=
      Nat.testBit_lt_two_pow
        (lt_of_lt_of_le hl (Nat.pow_le_pow_right (by decide) (not_lt.mp hi)))
    simp_all

/-! ## What one call does to each component of the world -/

theorem getch_term (P : Platform) (o : Outcomes) (w : World) :
    (__getch P o w).2.term =
      if o.tcsetattrDrainFails then
        (if o.tcsetattrNowFails then w.term else rawOf P (snapshot o w))
      else cookedOf P (rawOf P (snapshot o w)) := by
  rcases o with ⟨a, b, c, d⟩
  cases a <;> cases b <;> cases c <;> cases d <;> cases h : w.stdin <;>
    simp [__getch, tcgetattr, tcsetattr, read, perror, rawOf, cookedOf, snapshot, h]

theorem getch_ret (P : Platform) (o : Outcomes) (w : World) :
    (__getch P o w).1 = if o.readFails then 0 else w.stdin.headD 0 := by
  rcases o with ⟨a, b, c, d⟩
  cases a <;> cases b <;> cases c <;> cases d <;> cases h : w.stdin <;>
    simp [__getch, tcgetattr, tcsetattr, read, perror, h]

theorem getch_stdin (P : Platform) (o : Outcomes) (w : World) :
    (__getch P o w).2.stdin = if o.readFails then w.stdin else w.stdin.tail := by
  rcases o with ⟨a, b, c, d⟩
  cases a <;> cases b <;> cases c <;> cases d <;> cases h : w.stdin <;>
    simp [__getch, tcgetattr, tcsetattr, read, perror, h]

theorem getch_stderr (P : Platform) (o : Outcomes) (w : World) :
    (__getch P o w).2.stderr =
      w.stderr ++
        ((if o.tcgetattrFails then ["tcsetattr()"] else []) ++
         (if o.tcsetattrNowFails then ["tcsetattr ICANON"] else []) ++
         (if o.readFails then ["read()"] else []) ++
         (if o.tcsetattrDrainFails then ["tcsetattr ~ICANON"] else [])) := by
  rcases o with ⟨a, b, c, d⟩
  cases a <;> cases b <;> cases c <;> cases d <;> cases h : w.stdin <;>
    simp [__getch, tcgetattr, tcsetattr, read, perror, h]

theorem getch_calls (P : Platform) (o : Outcomes) (w : World) :
    (__getch P o w).2.calls =
      w.calls ++
        [⟨CallKind.tcgetattr, !o.tcgetattrFails, w.term⟩,
         ⟨CallKind.tcsetattr Action.TCSANOW, !o.tcsetattrNowFails, w.term⟩,
         ⟨CallKind.read, !o.readFails,
            if o.tcsetattrNowFails then w.term else rawOf P (snapshot o w)⟩,
         ⟨CallKind.tcsetattr Action.TCSADRAIN, !o.tcsetattrDrainFails,
            if o.tcsetattrNowFails then w.term else rawOf P (snapshot o w)⟩] := by
  rcases o with ⟨a, b, c, d⟩
  cases a <;> cases b <;> cases c <;> cases d <;> cases h : w.stdin <;>
    simp [__getch, tcgetattr, tcsetattr, read, perror, rawOf, snapshot, h]

theorem getchN_cons (P : Platform) (o : Outcomes) (os : List Outcomes) (w : World) :
    getchN P (o :: os) w =
      ((__getch P o w).1 :: (getchN P os (__getch P o w).2).1,
        (getchN P os (__getch P o w).2).2) := rfl

/-! ## Input consumption -/

/-- C3: when the read succeeds on a non-empty input `b :: rest`, one call of
`__getch` returns exactly `b` and leaves exactly `rest` pending, whatever the
outcomes of the attribute query and of the two attribute-set calls. -/
theorem getch_reads_one_byte (P : Platform) (o : Outcomes) (w : World) (b : Byte)
    (rest : List Byte) (hread : o.readFails = false) (hin : w.stdin = b :: rest) :
    (__getch P o w).1 = b ∧ (__getch P o w).2.stdin = rest := by
  rw [getch_ret, getch_stdin, hread, hin]
  simp

/-- C3, scenario A: with input `x` (byte 120) the call returns `x` and nothing
is left; with input `xy` the byte `y` (121) is still pending afterwards. -/
theorem getch_reads_one_byte_witness :
    ((__getch linux Outcomes.allOk (linuxCooked [120])).1 = 120 ∧
      (__getch linux Outcomes.allOk (linuxCooked [120])).2.stdin = []) ∧
    ((__getch linux Outcomes.queryFails (linuxCooked [120, 121])).1 = 120 ∧
      (__getch linux Outcomes.queryFails (linuxCooked [120, 121])).2.stdin = [121]) :=
  ⟨getch_reads_one_byte linux Outcomes.allOk (linuxCooked [120]) 120 [] rfl rfl,
   getch_reads_one_byte linux Outcomes.queryFails (linuxCooked [120, 121]) 120 [121] rfl rfl⟩

/-- C4: `n` successive calls whose reads succeed, on an input holding at least
`n` bytes, return the first `n` bytes in order and leave the input with those
`n` bytes dropped (`n` is the length of the list of outcomes). -/
theorem getchN_reads_prefix (P : Platform) (os : List Outcomes) (w : World)
    (hread : ∀ o ∈ os, o.readFails = false) (hlen : os.length ≤ w.stdin.length) :
    (getchN P os w).1 = w.stdin.take os.length ∧
      (getchN P os w).2.stdin = w.stdin.drop os.length := by
  induction os generalizing w with
  | nil => simp [getchN]
  | cons o os ih =>
    have ho : o.readFails = false := hread o (List.mem_cons_self o os)
    cases hs : w.stdin with
    | nil => rw [hs] at hlen; simp at hlen
    | cons b rest =>
      obtain ⟨h1, h2⟩ := getch_reads_one_byte P o w b rest ho hs
      have hlen2 : os.length ≤ (__getch P o w).2.stdin.length := by
        rw [h2]; rw [hs] at hlen; simpa using hlen
      obtain ⟨i1, i2⟩ :=
        ih (__getch P o w).2 (fun x hx => hread x (List.mem_cons_of_mem o hx)) hlen2
      rw [getchN_cons]
      simp only [List.length_cons, List.take_succ_cons, List.drop_succ_cons]
      rw [i1, i2, h1, h2]
      exact ⟨rfl, rfl⟩

/-- C4, scenario B: on input `ab` (bytes 97, 98) two calls return `a` then `b`
and leave nothing pending. -/
theorem getchN_reads_prefix_witness :
    (getchN linux [Outcomes.allOk, Outcomes.allOk] (linuxCooked [97, 98])).1 = [97, 98] ∧
      (getchN linux [Outcomes.allOk, Outcomes.allOk] (linuxCooked [97, 98])).2.stdin = [] :=
  getchN_reads_prefix linux [Outcomes.allOk, Outcomes.allOk] (linuxCooked [97, 98])
    (by decide) (by decide)

/-- C6: when the read fails, or succeeds at end of input, `__getch` returns the
null character and consumes no input, whatever the other three calls do. -/
theorem getch_unpopulated_returns_nul (P : Platform) (o : Outcomes) (w : World)
    (h : o.readFails = true ∨ w.stdin = []) :
    (__getch P o w).1 = 0 ∧ (__getch P o w).2.stdin = w.stdin := by
  rw [getch_ret, getch_stdin]
  rcases h with h | h
  · simp [h]
  · cases o.readFails <;> simp [h]

/-- C6 at a failing read with input pending, and at end of input. -/
theorem getch_unpopulated_returns_nul_witness :
    ((__getch linux Outcomes.readFailsOnly (linuxCooked [120])).1 = 0 ∧
      (__getch linux Outcomes.readFailsOnly (linuxCooked [120])).2.stdin = [120]) ∧
    ((__getch linux Outcomes.allOk (linuxCooked [])).1 = 0 ∧
      (__getch linux Outcomes.allOk (linuxCooked [])).2.stdin = []) :=
  ⟨getch_unpopulated_returns_nul linux Outcomes.readFailsOnly (linuxCooked [120])
      (Or.inl rfl),
   getch_unpopulated_returns_nul linux Outcomes.allOk (linuxCooked []) (Or.inr rfl)⟩

/-! ## Failure handling -/

/-- C5: `__getch` is total. For every world and every combination of failures
it yields a character and a world, and in that world the log has grown by
exactly the four platform calls, in source order, each with the outcome it met:
no failure skips a later call. -/
theorem getch_total (P : Platform) (o : Outcomes) (w : World) :
    ∃ (c : Byte) (w1 : World), __getch P o w = (c, w1) ∧
      w1.calls.map (fun r => (r.kind, r.ok)) =
        w.calls.map (fun r => (r.kind, r.ok)) ++
          [(CallKind.tcgetattr, !o.tcgetattrFails),
           (CallKind.tcsetattr Action.TCSANOW, !o.tcsetattrNowFails),
           (CallKind.read, !o.readFails),
           (CallKind.tcsetattr Action.TCSADRAIN, !o.tcsetattrDrainFails)] := by
  refine ⟨(__getch P o w).1, (__getch P o w).2, rfl, ?_⟩
  rw [getch_calls]
  simp

/-- C7: the diagnostics of one call are exactly one per failed platform call,
in call order, appended to the error stream; their number is the number of
failed calls; a call in which all four succeed emits none. -/
theorem getch_diagnostics (P : Platform) (o : Outcomes) (w : World) :
    (__getch P o w).2.stderr = w.stderr ++ newDiagnostics P o w ∧
    newDiagnostics P o w =
      ((newCalls P o w).filter (fun r => !r.ok)).map (fun r => diagnosticOf r.kind) ∧
    (newDiagnostics P o w).length =
      ([o.tcgetattrFails, o.tcsetattrNowFails, o.readFails,
        o.tcsetattrDrainFails].filter id).length ∧
    (newCalls P o w).map (fun r => r.ok) =
      [!o.tcgetattrFails, !o.tcsetattrNowFails, !o.readFails, !o.tcsetattrDrainFails] ∧
    newDiagnostics P Outcomes.allOk w = [] := by
  unfold newDiagnostics newCalls
  simp only [getch_stderr, getch_calls, List.drop_left]
  rcases o with ⟨a, b, c, d⟩
  cases a <;> cases b <;> cases c <;> cases d <;>
    simp [diagnosticOf, Outcomes.allOk]

/-- C8 (fails on the code): when only the attribute query fails, the single
diagnostic is labelled `tcsetattr()`, the name of the set operation; the name
`tcgetattr` does not occur in it. -/
theorem getch_query_failure_label :
    newDiagnostics linux Outcomes.queryFails (linuxCooked [120]) = ["tcsetattr()"] ∧
    (∀ d ∈ newDiagnostics linux Outcomes.queryFails (linuxCooked [120]),
      ¬ ("tcgetattr".toList <:+: d.toList)) ∧
    (newCalls linux Outcomes.queryFails (linuxCooked [120])).map (fun r => (r.kind, r.ok)) =
      [(CallKind.tcgetattr, false), (CallKind.tcsetattr Action.TCSANOW, true),
       (CallKind.read, true), (CallKind.tcsetattr Action.TCSADRAIN, true)] := by
  have h : newDiagnostics linux Outcomes.queryFails (linuxCooked [120]) = ["tcsetattr()"] := by
    unfold newDiagnostics
    simp [getch_stderr, Outcomes.queryFails, linuxCooked]
  refine ⟨h, ?_, ?_⟩
  · rw [h]
    intro d hd
    rw [List.mem_singleton] at hd
    subst hd
    decide
  · unfold newCalls
    simp [getch_calls, Outcomes.queryFails, linuxCooked]

/-! ## Terminal attributes -/

/-- C9: when the query and the first attribute set succeed, the one read of the
call is entered with the queried attributes changed as follows and not
otherwise: `ICANON` and `ECHO` clear, `VMIN = 1`, `VTIME = 0`; every other bit
of the `tcflag_t` word `c_lflag`, every other slot of `c_cc` and every other
field are those of the queried attributes. -/
theorem getch_raw_mode_at_read (P : Platform) (o : Outcomes) (w : World)
    (hq : o.tcgetattrFails = false) (hs : o.tcsetattrNowFails = false)
    (hV : P.VMIN ≠ P.VTIME) :
    ∃ r : CallRecord,
      (newCalls P o w).filter (fun c => decide (c.kind = CallKind.read)) = [r] ∧
      r.termAtCall.c_lflag &&& P.ICANON = 0 ∧
      r.termAtCall.c_lflag &&& P.ECHO = 0 ∧
      r.termAtCall.c_cc P.VMIN = 1 ∧
      r.termAtCall.c_cc P.VTIME = 0 ∧
      (∀ i, i < P.tcflagBits → P.ICANON.testBit i = false → P.ECHO.testBit i = false →
        r.termAtCall.c_lflag.testBit i = w.term.c_lflag.testBit i) ∧
      (∀ j, j ≠ P.VMIN → j ≠ P.VTIME → r.termAtCall.c_cc j = w.term.c_cc j) ∧
      r.termAtCall.c_iflag = w.term.c_iflag ∧
      r.termAtCall.c_oflag = w.term.c_oflag ∧
      r.termAtCall.c_cflag = w.term.c_cflag ∧
      r.termAtCall.c_line = w.term.c_line ∧
      r.termAtCall.c_ispeed = w.term.c_ispeed ∧
      r.termAtCall.c_ospeed = w.term.c_ospeed := by
  refine ⟨⟨CallKind.read, !o.readFails, rawOf P w.term⟩, ?_, ?_, ?_, ?_, ?_, ?_, ?_, ?_⟩
  · unfold newCalls
    simp [getch_calls, hq, hs, snapshot]
  · exact cleared_first _ _ _ _
  · exact cleared_second _ _ _ _
  · simp [rawOf, Function.update_noteq hV]
  · simp [rawOf]
  · intro i hi h1 h2
    simp [rawOf, testBit_bitNot, hi, h1, h2]
  · intro j h1 h2
    simp [rawOf, Function.update_noteq h1, Function.update_noteq h2]
  · simp [rawOf]

/-- C9 on a cooked Linux terminal (`c_lflag = 10`): the read is entered with
`c_lflag = 0`, `VMIN = 1`, `VTIME = 0`. -/
theorem getch_raw_mode_at_read_witness :
    ∃ r : CallRecord,
      (newCalls linux Outcomes.allOk (linuxCooked [120])).filter
          (fun c => decide (c.kind = CallKind.read)) = [r] ∧
      r.termAtCall.c_lflag &&& 2 = 0 ∧ r.termAtCall.c_lflag &&& 8 = 0 ∧
      r.termAtCall.c_cc 6 = 1 ∧ r.termAtCall.c_cc 5 = 0 := by
  obtain ⟨r, h1, h2, h3, h4, h5, _⟩ :=
    getch_raw_mode_at_read linux Outcomes.allOk (linuxCooked [120]) rfl rfl (by decide)
  exact ⟨r, h1, h2, h3, h4, h5⟩

/-- C10: when the restoring attribute set succeeds, the terminal ends with the
snapshot as modified in memory: `ICANON` and `ECHO` set, `VMIN = 1` and
`VTIME = 0`, and every other bit of `c_lflag`, every other slot of `c_cc` and
every other field equal to the snapshot, which is the queried attribute set when
the query succeeded and the zero-initialised one when it failed. -/
theorem getch_restores_from_modified_snapshot (P : Platform) (o : Outcomes) (w : World)
    (hd : o.tcsetattrDrainFails = false) (hV : P.VMIN ≠ P.VTIME) :
    (__getch P o w).2.term.c_lflag &&& P.ICANON = P.ICANON ∧
    (__getch P o w).2.term.c_lflag &&& P.ECHO = P.ECHO ∧
    (__getch P o w).2.term.c_cc P.VMIN = 1 ∧
    (__getch P o w).2.term.c_cc P.VTIME = 0 ∧
    (∀ i, i < P.tcflagBits → P.ICANON.testBit i = false → P.ECHO.testBit i = false →
      (__getch P o w).2.term.c_lflag.testBit i =
        (if o.tcgetattrFails then Termios.zero else w.term).c_lflag.testBit i) ∧
    (∀ j, j ≠ P.VMIN → j ≠ P.VTIME →
      (__getch P o w).2.term.c_cc j =
        (if o.tcgetattrFails then Termios.zero else w.term).c_cc j) ∧
    (__getch P o w).2.term.c_iflag =
      (if o.tcgetattrFails then Termios.zero else w.term).c_iflag ∧
    (__getch P o w).2.term.c_oflag =
      (if o.tcgetattrFails then Termios.zero else w.term).c_oflag ∧
    (__getch P o w).2.term.c_cflag =
      (if o.tcgetattrFails then Termios.zero else w.term).c_cflag ∧
    (__getch P o w).2.term.c_line =
      (if o.tcgetattrFails then Termios.zero else w.term).c_line ∧
    (__getch P o w).2.term.c_ispeed =
      (if o.tcgetattrFails then Termios.zero else w.term).c_ispeed ∧
    (__getch P o w).2.term.c_ospeed =
      (if o.tcgetattrFails then Termios.zero else w.term).c_ospeed := by
  rw [getch_term, hd]
  simp only [Bool.false_eq_true, if_false]
  change _ ∧ _ ∧ _ ∧ _ ∧
    (∀ i, _ → _ → _ → _ = (snapshot o w).c_lflag.testBit i) ∧
    (∀ j, _ → _ → _ = (snapshot o w).c_cc j) ∧
    _ = (snapshot o w).c_iflag ∧ _ = (snapshot o w).c_oflag ∧
    _ = (snapshot o w).c_cflag ∧ _ = (snapshot o w).c_line ∧
    _ = (snapshot o w).c_ispeed ∧ _ = (snapshot o w).c_ospeed
  refine ⟨set_first _ _ _, set_second _ _ _, ?_, ?_, ?_, ?_, ?_⟩
  · simp [cookedOf, rawOf, Function.update_noteq hV]
  · simp [cookedOf, rawOf]
  · intro i hi h1 h2
    simp [cookedOf, rawOf, testBit_bitNot, hi, h1, h2]
  · intro j h1 h2
    simp [cookedOf, rawOf, Function.update_noteq h1, Function.update_noteq h2]
  · simp [cookedOf, rawOf]

/-- C10 on a Linux terminal with echo off, and with a failing query on a cooked
one: the terminal ends with `c_lflag = 10` both times, and in the second case
with the zero `c_iflag` of the zero-initialised snapshot. -/
theorem getch_restores_from_modified_snapshot_witness :
    ((__getch linux Outcomes.allOk linuxNoEcho).2.term.c_lflag &&& 2 = 2 ∧
      (__getch linux Outcomes.allOk linuxNoEcho).2.term.c_lflag &&& 8 = 8) ∧
    ((__getch linux Outcomes.queryFails (linuxCooked [120])).2.term.c_cc 6 = 1 ∧
      (__getch linux Outcomes.queryFails (linuxCooked [120])).2.term.c_iflag = 0) := by
  obtain ⟨a1, a2, _⟩ :=
    getch_restores_from_modified_snapshot linux Outcomes.allOk linuxNoEcho rfl (by decide)
  obtain ⟨_, _, b3, _, _, _, b7, _⟩ :=
    getch_restores_from_modified_snapshot linux Outcomes.queryFails (linuxCooked [120])
      rfl (by decide)
  exact ⟨⟨a1, a2⟩, ⟨b3, b7⟩⟩

theorem getchN_allOk_flags (P : Platform) (n : Nat) (w : World) :
    (getchN P (List.replicate (n + 1) Outcomes.allOk) w).2.term.c_lflag &&& P.ICANON
        = P.ICANON ∧
      (getchN P (List.replicate (n + 1) Outcomes.allOk) w).2.term.c_lflag &&& P.ECHO
        = P.ECHO := by
  induction n generalizing w with
  | zero =>
    simp only [List.replicate, getchN, getch_term, Outcomes.allOk]
    exact ⟨set_first _ _ _, set_second _ _ _⟩
  | succ n ih =>
    rw [List.replicate_succ, getchN_cons]
    exact ih _

/-- C1 (as stated, fails): on a canonical Linux terminal with echo off, a call
in which all four platform calls succeed leaves the terminal in a mode other
than the one it found. -/
theorem getch_mode_changed_counterexample :
    ¬ ((__getch linux Outcomes.allOk linuxNoEcho).2.term = linuxNoEcho.term) := by
  intro h
  have h2 := congrArg Termios.c_lflag h
  rw [getch_term] at h2
  simp [Outcomes.allOk, cookedOf, rawOf, snapshot, linuxNoEcho, linux, bitNot] at h2
  exact absurd h2 (by decide)

/-- C1 (amended): the terminal's mode after `__getch` equals its mode before
the call when the query and the restoring set succeed and the mode before the
call has `ICANON` and `ECHO` set, `VMIN = 1` and `VTIME = 0` (with `c_lflag`
a `tcflag_t` value), and also when both attribute-set calls fail. -/
theorem getch_mode_neutral (P : Platform) (o : Outcomes) (w : World)
    (h : (o.tcgetattrFails = false ∧ o.tcsetattrDrainFails = false ∧
            w.term.c_lflag < 2 ^ P.tcflagBits ∧
            w.term.c_lflag &&& P.ICANON = P.ICANON ∧
            w.term.c_lflag &&& P.ECHO = P.ECHO ∧
            w.term.c_cc P.VMIN = 1 ∧ w.term.c_cc P.VTIME = 0) ∨
         (o.tcsetattrNowFails = true ∧ o.tcsetattrDrainFails = true)) :
    (__getch P o w).2.term = w.term := by
  rw [getch_term]
  rcases h with ⟨hq, hd, hl, hI, hE, hmin, htime⟩ | ⟨hs, hd⟩
  · simp only [hq, hd, snapshot, Bool.false_eq_true, if_false]
    have e1 : (cookedOf P (rawOf P w.term)).c_lflag = w.term.c_lflag :=
      clear_then_set_id _ _ _ _ hl hI hE
    have e2 : (cookedOf P (rawOf P w.term)).c_cc = w.term.c_cc := by
      funext j
      simp only [cookedOf, rawOf, Function.update_apply]
      by_cases h1 : j = P.VTIME
      · simp [h1, htime]
      · by_cases h2 : j = P.VMIN
        · subst h2
          simp [h1, hmin]
        · simp [h1, h2]
    cases ht : w.term
    simp only [cookedOf, rawOf, ht] at e1 e2 ⊢
    simp only [e1, e2]
  · simp [hs, hd]

/-- C1 (amended) on a cooked Linux terminal with all calls succeeding, and on a
terminal with echo off when both attribute-set calls fail. -/
theorem getch_mode_neutral_witness :
    (__getch linux Outcomes.allOk (linuxCooked [120])).2.term = (linuxCooked [120]).term ∧
    (__getch linux Outcomes.bothSetsFail linuxNoEcho).2.term = linuxNoEcho.term :=
  ⟨getch_mode_neutral linux Outcomes.allOk (linuxCooked [120])
      (Or.inl ⟨rfl, rfl, by decide, by decide, by decide, by decide, by decide⟩),
   getch_mode_neutral linux Outcomes.bothSetsFail linuxNoEcho (Or.inr ⟨rfl, rfl⟩)⟩

/-- C2 (as stated, fails): on a Linux terminal already in raw mode, after one
call with all platform calls succeeding the `ICANON` and `ECHO` flags do not
both have the values they had before the call. -/
theorem getchN_flags_changed_counterexample :
    ¬ ((getchN linux (List.replicate 1 Outcomes.allOk) linuxRaw).2.term.c_lflag
          &&& linux.ICANON = linuxRaw.term.c_lflag &&& linux.ICANON ∧
       (getchN linux (List.replicate 1 Outcomes.allOk) linuxRaw).2.term.c_lflag
          &&& linux.ECHO = linuxRaw.term.c_lflag &&& linux.ECHO) := by
  intro h
  have h1 := h.1
  rw [(getchN_allOk_flags linux 0 linuxRaw).1] at h1
  simp [linux, linuxRaw] at h1

/-- C2 (amended): for every `N >= 1`, after `N` consecutive calls in which all
platform calls succeed the `ICANON` and `ECHO` flags are both set; so they equal
the values they had before the first call exactly when both were set then. -/
theorem getchN_flags_after (P : Platform) (N : Nat) (w : World) (hN : 1 ≤ N) :
    ((getchN P (List.replicate N Outcomes.allOk) w).2.term.c_lflag &&& P.ICANON
        = P.ICANON ∧
      (getchN P (List.replicate N Outcomes.allOk) w).2.term.c_lflag &&& P.ECHO
        = P.ECHO) ∧
    (((getchN P (List.replicate N Outcomes.allOk) w).2.term.c_lflag &&& P.ICANON
          = w.term.c_lflag &&& P.ICANON ∧
        (getchN P (List.replicate N Outcomes.allOk) w).2.term.c_lflag &&& P.ECHO
          = w.term.c_lflag &&& P.ECHO) ↔
      (w.term.c_lflag &&& P.ICANON = P.ICANON ∧ w.term.c_lflag &&& P.ECHO = P.ECHO)) := by
  obtain ⟨n, rfl⟩ : ∃ n, N = n + 1 := ⟨N - 1, by omega⟩
  obtain ⟨h1, h2⟩ := getchN_allOk_flags P n w
  refine ⟨⟨h1, h2⟩, ?_⟩
  rw [h1, h2]
  constructor
  · rintro ⟨a, b⟩
    exact ⟨a.symm, b.symm⟩
  · rintro ⟨a, b⟩
    exact ⟨a.symm, b.symm⟩

/-- C2 (amended) for three calls on a raw-mode Linux terminal with three bytes
pending: both flags end set. -/
theorem getchN_flags_after_witness :
    (getchN linux (List.replicate 3 Outcomes.allOk)
        { linuxRaw with stdin := [97, 98, 99] }).2.term.c_lflag &&& 2 = 2 ∧
      (getchN linux (List.replicate 3 Outcomes.allOk)
        { linuxRaw with stdin := [97, 98, 99] }).2.term.c_lflag &&& 8 = 8 :=
  (getchN_flags_after linux 3 { linuxRaw with stdin := [97, 98, 99] } (by decide)).1

end Compatible
